import Mathlib

/-!
# Verification of the Update Scanner change-classification core

Shallow embedding of the repository's scan pipeline:

* `Scan` (scan.js): the orchestrator `scan`, the per-page step `_scanPage`,
  `_processHtml`, the state update `_updatePageState`, and the classifier
  `_getChangeType`, with its `changeEnum` string enumeration.
* `Page` (src/lib/page/page.js): the persisted page record, its defaulting
  constructor and `_toObject` serialisation, and `stateEnum`.

The `Fuzzy` comparator and the `PageStore` snapshot store are imported by
scan.js but their sources are not part of this repository snapshot; they are
modelled from the specification where noted.

JavaScript strings are embedded as `String`, numbers that are used as
character counts as `Nat`, and the string enumerations (`Scan.changeEnum`,
`Page.stateEnum`) as `String` constants, exactly as the source stores them.
-/

namespace Scan

/-- `Scan.changeEnum.NEW_CONTENT` (scan.js line 155). -/
def changeEnum.NEW_CONTENT : String := "new_content"

/-- `Scan.changeEnum.NO_CHANGE` (scan.js line 156). -/
def changeEnum.NO_CHANGE : String := "no_change"

/-- `Scan.changeEnum.MAJOR_CHANGE` (scan.js line 157). -/
def changeEnum.MAJOR_CHANGE : String := "major_change"

/-- `Scan.changeEnum.MINOR_CHANGE` (scan.js line 158). -/
def changeEnum.MINOR_CHANGE : String := "minor_change"

end Scan

namespace Fuzzy

/-- Modelled from the spec: the `Fuzzy` comparator is imported from
`./fuzzy` but is not present in this repository snapshot.  The spec's
Comparator contract (§4.1) measures the magnitude of difference as the sum
of the lengths of inserted and deleted spans under an LCS-style diff.  This
is the length of a longest common subsequence of the two character lists. -/
def lcsLenAux : Nat → List Char → List Char → Nat
  | 0, _, _ => 0
  | _ + 1, [], _ => 0
  | _ + 1, _ :: _, [] => 0
  | fuel + 1, a :: as, b :: bs =>
    if a = b then lcsLenAux fuel as bs + 1
    else max (lcsLenAux fuel (a :: as) bs) (lcsLenAux fuel as (b :: bs))

/-- Modelled from the spec: length of a longest common subsequence; the
fuel `xs.length + ys.length` strictly bounds the recursion depth, so it
never runs out. -/
def lcsLen (xs ys : List Char) : Nat :=
  lcsLenAux (xs.length + ys.length) xs ys

/-- Modelled from the spec: magnitude of difference between two texts =
(characters deleted from the old text) + (characters inserted into the new
text), i.e. the characters outside a longest common subsequence. -/
def magnitude (oldText newText : String) : Nat :=
  let l := lcsLen oldText.toList newText.toList
  (oldText.length - l) + (newText.length - l)

/-- Modelled from the spec: `Fuzzy.isMajorChange(oldText, newText,
threshold)` returns true iff the magnitude of difference meets or exceeds
`threshold` (">=", spec §4.1). -/
def isMajorChange (oldText newText : String) (threshold : Nat) : Bool :=
  threshold ≤ magnitude oldText newText

end Fuzzy

namespace Scan

/-- `Scan._getChangeType` (scan.js lines 134-148), parametrised by the
comparator so that facts independent of the comparator can be stated for
every comparator.  The source checks, in order: `html1 == ''` (first scan,
NEW_CONTENT), `html1 == html2` (NO_CHANGE), `Fuzzy.isMajorChange(html1,
html2, changeThreshold)` (MAJOR_CHANGE), otherwise MINOR_CHANGE. -/
def getChangeTypeWith (comparator : String → String → Nat → Bool)
    (html1 html2 : String) (changeThreshold : Nat) : String :=
  if html1 = "" then changeEnum.NEW_CONTENT
  else if html1 = html2 then changeEnum.NO_CHANGE
  else if comparator html1 html2 changeThreshold then changeEnum.MAJOR_CHANGE
  else changeEnum.MINOR_CHANGE

/-- `Scan._getChangeType` (scan.js lines 134-148) with the repository's
comparator `Fuzzy.isMajorChange` plugged in, as at scan.js line 141. -/
def getChangeType (html1 html2 : String) (changeThreshold : Nat) : String :=
  getChangeTypeWith Fuzzy.isMajorChange html1 html2 changeThreshold

end Scan

namespace Page

/-- `Page.stateEnum.NO_CHANGE` (page.js line 38). -/
def stateEnum.NO_CHANGE : String := "no_change"

/-- `Page.stateEnum.CHANGED` (page.js line 39). -/
def stateEnum.CHANGED : String := "changed"

/-- `Page.stateEnum.ERROR` (page.js line 40). -/
def stateEnum.ERROR : String := "error"

end Page

/-- The two snapshot slots `PageStore.htmlTypes.OLD` / `NEW` referenced by
scan.js.  `PageStore` itself is not in this repository snapshot; the slot
names come from the spec (§3, "two named slots per page, OLD and NEW"). -/
inductive HtmlType where
  | OLD
  | NEW
deriving DecidableEq, Repr

/-- Per-page snapshot storage: the OLD and NEW HTML slots, `none` when the
slot has never been written. -/
structure SnapshotSlots where
  oldHtml : Option String := none
  newHtml : Option String := none
deriving DecidableEq, Repr

/-- The fields of a `Page` object that scan.js reads or writes:
`id`, `title`, `url` (kept abstractly via the fetch outcome),
`changeThreshold`, `ignoreNumbers`, `state`, `error`, `errorMessage`.
`ignoreNumbers` is carried because the Page record declares it
(page.js line 112), whether or not the scan consults it. -/
structure ScanPage where
  id : String
  title : String := "New Page"
  changeThreshold : Nat := 100
  ignoreNumbers : Bool := false
  state : String := Page.stateEnum.NO_CHANGE
  error : Bool := false
  errorMessage : String := ""
deriving DecidableEq, Repr

/-- The external stores the scan writes through: the snapshot store keyed
by page id (modelled from the spec §6, since `PageStore` is not in this
snapshot), plus a log of every `page.save()` call in order, recording the
saved Page record. -/
structure World where
  store : String → SnapshotSlots
  savedPages : List ScanPage

namespace PageStore

/-- Modelled from the spec: `PageStore.saveHtml(id, type, html)` writes one
snapshot slot of one page; slots of other pages are untouched (§6: keyed by
(pageId, slot)). -/
def saveHtml (w : World) (pageId : String) (t : HtmlType) (html : String) :
    World :=
  { w with
    store := fun i =>
      if i = pageId then
        match t with
        | .OLD => { w.store pageId with oldHtml := some html }
        | .NEW => { w.store pageId with newHtml := some html }
      else w.store i }

/-- Modelled from the spec: `PageStore.loadHtml(id, type)` reads one
snapshot slot, `none` when the slot was never written. -/
def loadHtml (w : World) (pageId : String) (t : HtmlType) : Option String :=
  match t with
  | .OLD => (w.store pageId).oldHtml
  | .NEW => (w.store pageId).newHtml

end PageStore

/-- `page.save()` (page.js lines 196-203): best-effort persistence of the
Page record, modelled as appending the record to the save log. -/
def World.savePage (w : World) (p : ScanPage) : World :=
  { w with savedPages := w.savedPages ++ [p] }

namespace Scan

/-- `Scan._updatePageState` (scan.js lines 88-120): switch on
`_getChangeType(prevHtml, scannedHtml, page.changeThreshold)`:
* NEW_CONTENT or MINOR_CHANGE: save the scanned HTML into the NEW slot and
  set `page.state = NO_CHANGE` unless it is already CHANGED;
* MAJOR_CHANGE: if the page was not already CHANGED, save `prevHtml` into
  the OLD slot; always save the scanned HTML into NEW and set state CHANGED;
* NO_CHANGE: only the conditional state update, no snapshot writes.
Afterwards clear `page.error` / `page.errorMessage` and call `page.save()`.
The JS method fires its storage operations without awaiting them; this is
the eventual-state semantics once they have all completed. -/
def updatePageState (page : ScanPage) (prevHtml scannedHtml : String)
    (w : World) : ScanPage × World :=
  let c := getChangeType prevHtml scannedHtml page.changeThreshold
  let pw :=
    if c = changeEnum.NEW_CONTENT ∨ c = changeEnum.MINOR_CHANGE then
      (if page.state ≠ Page.stateEnum.CHANGED then
        { page with state := Page.stateEnum.NO_CHANGE }
       else page,
       PageStore.saveHtml w page.id .NEW scannedHtml)
    else if c = changeEnum.MAJOR_CHANGE then
      let wOld :=
        if page.state ≠ Page.stateEnum.CHANGED then
          PageStore.saveHtml w page.id .OLD prevHtml
        else w
      ({ page with state := Page.stateEnum.CHANGED },
       PageStore.saveHtml wOld page.id .NEW scannedHtml)
    else if c = changeEnum.NO_CHANGE then
      (if page.state ≠ Page.stateEnum.CHANGED then
        { page with state := Page.stateEnum.NO_CHANGE }
       else page,
       w)
    else (page, w)
  let page2 := { pw.1 with error := false, errorMessage := "" }
  (page2, pw.2.savePage page2)

/-- The state component of `_updatePageState`'s switch (scan.js lines
88-114), extracted as a pure transition function: current state × incoming
change category → next state. -/
def nextState (state category : String) : String :=
  if category = changeEnum.NEW_CONTENT ∨ category = changeEnum.MINOR_CHANGE
  then
    if state ≠ Page.stateEnum.CHANGED then Page.stateEnum.NO_CHANGE else state
  else if category = changeEnum.MAJOR_CHANGE then Page.stateEnum.CHANGED
  else if category = changeEnum.NO_CHANGE then
    if state ≠ Page.stateEnum.CHANGED then Page.stateEnum.NO_CHANGE else state
  else state

/-- `Scan._processHtml` (scan.js lines 73-77): load the NEW snapshot as the
comparison baseline and hand it to `_updatePageState` together with the
freshly scanned HTML.  A never-written slot reaches `_getChangeType` as the
first-scan case (spec §4.2: "empty/absent"), modelled as `""`. -/
def processHtml (page : ScanPage) (scannedHtml : String) (w : World) :
    ScanPage × World :=
  let prevHtml := (PageStore.loadHtml w page.id .NEW).getD ""
  updatePageState page prevHtml scannedHtml w

end Scan

/-- Outcome of `fetch(page.url)` followed by `checkStatus` (scan.js lines
41-53): a success carries the response text; a non-ok response carries its
status and statusText; a transport error carries its message. -/
inductive FetchResult where
  | success (body : String)
  | httpError (status : Nat) (statusText : String)
  | netError (message : String)
deriving DecidableEq, Repr

namespace Scan

/-- `Scan._scanPage` (scan.js lines 40-60): on a successful fetch, process
the body via `_processHtml`; on a non-ok response the chain rejects with
`'[' + status + '] ' + statusText` and on a transport error with the error
itself, and the `catch` handler sets `page.error = true` and
`page.errorMessage` to that value.  The catch handler performs no storage
operation and does not call `page.save()`.  The fetch outcome is supplied
as data since the network is an external collaborator. -/
def scanPage (res : FetchResult) (page : ScanPage) (w : World) :
    ScanPage × World :=
  match res with
  | .success body => processHtml page body w
  | .httpError status statusText =>
      ({ page with
          error := true,
          errorMessage := "[" ++ toString status ++ "] " ++ statusText },
       w)
  | .netError message =>
      ({ page with error := true, errorMessage := message }, w)

/-- `Scan.scan` (scan.js lines 18-28): fold `_scanPage` over the page list
in order, threading the stores; each page is paired with its fetch outcome.
This is the eventual-state semantics of the promise chain once every
page's step and every detached storage operation has completed. -/
def scan : List (ScanPage × FetchResult) → World → List ScanPage × World
  | [], w => ([], w)
  | (page, res) :: rest, w =>
    let pw := scanPage res page w
    let rest2 := scan rest pw.2
    (pw.1 :: rest2.1, rest2.2)

end Scan

/-- A JavaScript value as stored in a Page field or a serialised Page
object: `undef` covers both an absent property and an explicit `undefined`
(destructuring treats them alike), and `null`, strings, numbers and
booleans are the values page.js actually stores. -/
inductive JSVal where
  | undef
  | null
  | str (s : String)
  | num (n : Int)
  | bool (b : Bool)
deriving DecidableEq, Repr

/-- A serialised Page object (the `data` argument of the constructor and
the result of `_toObject`, page.js lines 107-170): one slot per persisted
field, `JSVal.undef` when the property is absent. -/
structure PageData where
  title : JSVal := .undef
  url : JSVal := .undef
  scanRateMinutes : JSVal := .undef
  changeThreshold : JSVal := .undef
  ignoreNumbers : JSVal := .undef
  encoding : JSVal := .undef
  highlightChanges : JSVal := .undef
  highlightColour : JSVal := .undef
  markChanges : JSVal := .undef
  doPost : JSVal := .undef
  postParams : JSVal := .undef
  state : JSVal := .undef
  error : JSVal := .undef
  errorMessage : JSVal := .undef
  lastAutoscanTime : JSVal := .undef
  oldScanTime : JSVal := .undef
  newScanTime : JSVal := .undef
deriving DecidableEq, Repr

/-- The `Page` record (page.js): the id plus the seventeen persisted
fields, each holding a JavaScript value. -/
structure PageRec where
  id : String
  title : JSVal
  url : JSVal
  scanRateMinutes : JSVal
  changeThreshold : JSVal
  ignoreNumbers : JSVal
  encoding : JSVal
  highlightChanges : JSVal
  highlightColour : JSVal
  markChanges : JSVal
  doPost : JSVal
  postParams : JSVal
  state : JSVal
  error : JSVal
  errorMessage : JSVal
  lastAutoscanTime : JSVal
  oldScanTime : JSVal
  newScanTime : JSVal
deriving DecidableEq, Repr

namespace Page

/-- `Page.DEFAULTS` (page.js lines 11-31). -/
def DEFAULTS : PageData :=
  { title := .str "New Page",
    url := .null,
    scanRateMinutes := .num (24 * 60),
    changeThreshold := .num 100,
    ignoreNumbers := .bool false,
    encoding := .null,
    highlightChanges := .bool true,
    highlightColour := .str "#ffff66",
    markChanges := .bool false,
    doPost := .bool false,
    postParams := .null,
    state := .str stateEnum.NO_CHANGE,
    error := .null,
    errorMessage := .null,
    lastAutoscanTime := .null,
    oldScanTime := .null,
    newScanTime := .null }

/-- A JavaScript destructuring default (`{title=Page.DEFAULTS.title, ...}`,
page.js lines 107-125): the default applies exactly when the property is
absent or `undefined`; `null` and every other value pass through. -/
def orDefault (v d : JSVal) : JSVal :=
  if v = .undef then d else v

/-- The `Page` constructor (page.js lines 107-144): each field is taken
from the data object, falling back to `Page.DEFAULTS` when absent or
`undefined`; `id` is stored as given. -/
def construct (id : String) (data : PageData) : PageRec :=
  { id := id,
    title := orDefault data.title DEFAULTS.title,
    url := orDefault data.url DEFAULTS.url,
    scanRateMinutes := orDefault data.scanRateMinutes DEFAULTS.scanRateMinutes,
    changeThreshold := orDefault data.changeThreshold DEFAULTS.changeThreshold,
    ignoreNumbers := orDefault data.ignoreNumbers DEFAULTS.ignoreNumbers,
    encoding := orDefault data.encoding DEFAULTS.encoding,
    highlightChanges :=
      orDefault data.highlightChanges DEFAULTS.highlightChanges,
    highlightColour := orDefault data.highlightColour DEFAULTS.highlightColour,
    markChanges := orDefault data.markChanges DEFAULTS.markChanges,
    doPost := orDefault data.doPost DEFAULTS.doPost,
    postParams := orDefault data.postParams DEFAULTS.postParams,
    state := orDefault data.state DEFAULTS.state,
    error := orDefault data.error DEFAULTS.error,
    errorMessage := orDefault data.errorMessage DEFAULTS.errorMessage,
    lastAutoscanTime :=
      orDefault data.lastAutoscanTime DEFAULTS.lastAutoscanTime,
    oldScanTime := orDefault data.oldScanTime DEFAULTS.oldScanTime,
    newScanTime := orDefault data.newScanTime DEFAULTS.newScanTime }

/-- `Page._toObject` (page.js lines 151-170): every persisted field except
`id` is copied into a plain object for storage. -/
def toObject (p : PageRec) : PageData :=
  { title := p.title,
    url := p.url,
    scanRateMinutes := p.scanRateMinutes,
    changeThreshold := p.changeThreshold,
    ignoreNumbers := p.ignoreNumbers,
    encoding := p.encoding,
    highlightChanges := p.highlightChanges,
    highlightColour := p.highlightColour,
    markChanges := p.markChanges,
    doPost := p.doPost,
    postParams := p.postParams,
    state := p.state,
    error := p.error,
    errorMessage := p.errorMessage,
    lastAutoscanTime := p.lastAutoscanTime,
    oldScanTime := p.oldScanTime,
    newScanTime := p.newScanTime }

/-- All seventeen persisted fields of the record are defined, i.e. none of
them holds JavaScript `undefined` (a `null` field counts as defined). -/
def allDefined (p : PageRec) : Prop :=
  p.title ≠ .undef ∧ p.url ≠ .undef ∧ p.scanRateMinutes ≠ .undef ∧
  p.changeThreshold ≠ .undef ∧ p.ignoreNumbers ≠ .undef ∧
  p.encoding ≠ .undef ∧ p.highlightChanges ≠ .undef ∧
  p.highlightColour ≠ .undef ∧ p.markChanges ≠ .undef ∧
  p.doPost ≠ .undef ∧ p.postParams ≠ .undef ∧ p.state ≠ .undef ∧
  p.error ≠ .undef ∧ p.errorMessage ≠ .undef ∧
  p.lastAutoscanTime ≠ .undef ∧ p.oldScanTime ≠ .undef ∧
  p.newScanTime ≠ .undef

instance (p : PageRec) : Decidable (allDefined p) := by
  unfold allDefined
  infer_instance

end Page

/-- Events of an execution of the scan batch, used to state ordering
properties of the promise chain built in `Scan.scan` (scan.js lines
18-28). -/
inductive Ev where
  | fetchStart (pageId : String)
  | fetchDone (pageId : String)
  | fetchFail (pageId : String)
  | loadStart (pageId : String)
  | classifyDone (pageId : String)
deriving DecidableEq, Repr

namespace Scan

/-- The events a page's `_scanPage` step performs inside the awaited
promise chain, in order.  On success: the fetch starts and completes, then
`_processHtml` synchronously starts `PageStore.loadHtml` (scan.js line 74)
and returns without awaiting it — so the classification is NOT part of the
chain.  On failure: the fetch starts and the catch handler runs. -/
def chainEvents : ScanPage × FetchResult → List Ev
  | (page, .success _) =>
    [.fetchStart page.id, .fetchDone page.id, .loadStart page.id]
  | (page, _) => [.fetchStart page.id, .fetchFail page.id]

/-- The events a page's step leaves behind as a detached continuation:
`_processHtml` attaches the classification (`_updatePageState`) to the
storage-load promise it does not return (scan.js lines 74-76), so the
classification runs whenever that load resolves, unordered with respect to
later chain events. -/
def detachedEvents : ScanPage × FetchResult → List Ev
  | (page, .success _) => [.classifyDone page.id]
  | (_, _) => []

/-- Event `a` occurs strictly before event `b` somewhere in the trace. -/
def Precedes (a b : Ev) (tr : List Ev) : Prop :=
  ∃ i j : Fin tr.length, (i : Nat) < (j : Nat) ∧ tr.get i = a ∧ tr.get j = b

instance (a b : Ev) (tr : List Ev) : Decidable (Precedes a b tr) := by
  unfold Precedes
  infer_instance

/-- The execution traces the code admits: a trace interleaves the chain
events of all pages (kept in chain order, because the promise chain awaits
each `_scanPage` before the next, scan.js lines 20-26) with each page's
detached classification (which can only run after its storage load has
started, but is otherwise unordered, because `_processHtml` does not return
the load promise, scan.js line 74). -/
def Admissible (inputs : List (ScanPage × FetchResult)) (tr : List Ev) :
    Prop :=
  tr.Perm ((inputs.map chainEvents).flatten ++ (inputs.map detachedEvents).flatten)
  ∧ List.Sublist (inputs.map chainEvents).flatten tr
  ∧ ∀ pr ∈ inputs, ∀ e ∈ detachedEvents pr,
      Precedes (.loadStart pr.1.id) e tr

end Scan

/-- True when the fetch did not succeed: a non-ok response status or a
transport error (spec §7 taxonomy (a)). -/
def FetchResult.failed : FetchResult → Bool
  | .success _ => false
  | .httpError _ _ => true
  | .netError _ => true

/-- The rejection value the catch handler stores into `page.errorMessage`
(scan.js lines 46-47 and 55-59): `'[' + status + '] ' + statusText` for a
non-ok response, the transport error itself otherwise. -/
def fetchErrorMessage : FetchResult → String
  | .success _ => ""
  | .httpError status statusText =>
      "[" ++ toString status ++ "] " ++ statusText
  | .netError message => message

/-- A concrete fully-defined Page record used to instantiate the
serialisation round trip. -/
def samplePage : PageRec :=
  { id := "p1",
    title := .str "T",
    url := .str "http://example.test",
    scanRateMinutes := .num 60,
    changeThreshold := .num 5,
    ignoreNumbers := .bool true,
    encoding := .null,
    highlightChanges := .bool true,
    highlightColour := .str "#ffff66",
    markChanges := .bool false,
    doPost := .bool false,
    postParams := .null,
    state := .str "changed",
    error := .bool false,
    errorMessage := .str "",
    lastAutoscanTime := .null,
    oldScanTime := .num 1,
    newScanTime := .num 2 }

example : Scan.getChangeType "" "" 5 = Scan.changeEnum.NEW_CONTENT := by decide
example : Scan.getChangeType "same" "same" 0 = Scan.changeEnum.NO_CHANGE := by decide
example : Scan.getChangeType "a" "b" 1 = Scan.changeEnum.MAJOR_CHANGE := by decide
example : Scan.getChangeType "ab" "ac" 3 = Scan.changeEnum.MINOR_CHANGE := by decide
example : Fuzzy.magnitude "Count: 5" "Count: 9" = 2 := by decide
example : Scan.getChangeType "Count: 5" "Count: 9" 1 = Scan.changeEnum.MAJOR_CHANGE := by
  decide

/-! ## Helper lemmas -/

theorem nextState_changed (c : String) :
    Scan.nextState Page.stateEnum.CHANGED c = Page.stateEnum.CHANGED := by
  unfold Scan.nextState
  split_ifs <;> simp_all

theorem foldl_nextState_changed (l : List String) :
    l.foldl Scan.nextState Page.stateEnum.CHANGED = Page.stateEnum.CHANGED := by
  induction l with
  | nil => rfl
  | cons c l ih => simpa [nextState_changed] using ih

theorem updatePageState_fst_state (page : ScanPage)
    (prevHtml scannedHtml : String) (w : World) :
    (Scan.updatePageState page prevHtml scannedHtml w).1.state =
      Scan.nextState page.state
        (Scan.getChangeType prevHtml scannedHtml page.changeThreshold) := by
  unfold Scan.updatePageState Scan.nextState
  dsimp only
  split_ifs <;> rfl

/-! ## Claims -/

/-- C4: state monotonicity.  First conjunct grounds the extracted
transition function `nextState` in the embedded `_updatePageState`: the
state written by `_updatePageState` is exactly `nextState` of the current
state and the computed change category.  Second conjunct: for every
sequence of categories applied from NO_CHANGE, once the state has become
CHANGED, applying any further categories (indeed any further strings at
all) leaves it CHANGED — scan results alone never move a page out of
CHANGED. -/
theorem state_monotone_once_changed :
    (∀ (page : ScanPage) (prevHtml scannedHtml : String) (w : World),
      (Scan.updatePageState page prevHtml scannedHtml w).1.state =
        Scan.nextState page.state
          (Scan.getChangeType prevHtml scannedHtml page.changeThreshold)) ∧
    ∀ (pre post : List String),
      pre.foldl Scan.nextState Page.stateEnum.NO_CHANGE =
        Page.stateEnum.CHANGED →
      (pre ++ post).foldl Scan.nextState Page.stateEnum.NO_CHANGE =
        Page.stateEnum.CHANGED := by
  refine ⟨updatePageState_fst_state, fun pre post h => ?_⟩
  rw [List.foldl_append, h, foldl_nextState_changed]

/-- Witness for C4 at a concrete sequence: MAJOR_CHANGE then NO_CHANGE and
MINOR_CHANGE leaves the state CHANGED. -/
theorem state_monotone_once_changed_witness :
    ([Scan.changeEnum.MAJOR_CHANGE] ++
      [Scan.changeEnum.NO_CHANGE, Scan.changeEnum.MINOR_CHANGE]).foldl
        Scan.nextState Page.stateEnum.NO_CHANGE = Page.stateEnum.CHANGED :=
  state_monotone_once_changed.2 [Scan.changeEnum.MAJOR_CHANGE]
    [Scan.changeEnum.NO_CHANGE, Scan.changeEnum.MINOR_CHANGE] (by decide)

/-- C5: the classifier's decision order, for EVERY comparator (so in
particular the equality fast path never invokes the comparator): an empty
old text gives NEW_CONTENT (also when both texts are empty); otherwise
equal texts give NO_CHANGE; otherwise the result is MAJOR_CHANGE exactly
when the comparator reports a major change, else MINOR_CHANGE. -/
theorem getChangeType_decision_order :
    (∀ (f : String → String → Nat → Bool) (newHtml : String) (t : Nat),
      Scan.getChangeTypeWith f "" newHtml t = Scan.changeEnum.NEW_CONTENT) ∧
    (∀ (f : String → String → Nat → Bool) (oldHtml : String) (t : Nat),
      oldHtml ≠ "" →
      Scan.getChangeTypeWith f oldHtml oldHtml t =
        Scan.changeEnum.NO_CHANGE) ∧
    (∀ (f : String → String → Nat → Bool) (oldHtml newHtml : String)
      (t : Nat), oldHtml ≠ "" → oldHtml ≠ newHtml →
      Scan.getChangeTypeWith f oldHtml newHtml t =
        if f oldHtml newHtml t then Scan.changeEnum.MAJOR_CHANGE
        else Scan.changeEnum.MINOR_CHANGE) := by
  refine ⟨fun f n t => ?_, fun f o t h => ?_, fun f o n t h1 h2 => ?_⟩
  · simp [Scan.getChangeTypeWith]
  · simp [Scan.getChangeTypeWith, h]
  · simp [Scan.getChangeTypeWith, h1, h2]

/-- Witness for C5 at concrete inputs, with the repository's comparator. -/
theorem getChangeType_decision_order_witness :
    Scan.getChangeTypeWith Fuzzy.isMajorChange "same" "same" 3 =
      Scan.changeEnum.NO_CHANGE ∧
    Scan.getChangeTypeWith Fuzzy.isMajorChange "a" "b" 1 =
      (if Fuzzy.isMajorChange "a" "b" 1 then Scan.changeEnum.MAJOR_CHANGE
       else Scan.changeEnum.MINOR_CHANGE) :=
  ⟨getChangeType_decision_order.2.1 Fuzzy.isMajorChange "same" 3 (by decide),
   getChangeType_decision_order.2.2 Fuzzy.isMajorChange "a" "b" 1 (by decide)
     (by decide)⟩

/-- C6 (amended): with the comparator modelled from the spec, for texts
with a nonempty, distinct old side, a measured magnitude exactly equal to
the threshold classifies as MAJOR_CHANGE (">=" semantics), and magnitude
threshold - 1 classifies as MINOR_CHANGE.  The amendment restricts to a
nonempty old text (else the first-scan branch fires) and distinct texts
(else the equality branch fires); see the counterexample. -/
theorem threshold_boundary_ge :
    (∀ (a b : String) (t : Nat), a ≠ "" → a ≠ b → Fuzzy.magnitude a b = t →
      Scan.getChangeType a b t = Scan.changeEnum.MAJOR_CHANGE) ∧
    (∀ (a b : String) (t : Nat), a ≠ "" → a ≠ b →
      Fuzzy.magnitude a b + 1 = t →
      Scan.getChangeType a b t = Scan.changeEnum.MINOR_CHANGE) := by
  constructor
  · intro a b t ha hab hm
    simp [Scan.getChangeType, Scan.getChangeTypeWith, ha, hab,
      Fuzzy.isMajorChange, hm]
  · intro a b t ha hab hm
    subst hm
    simp [Scan.getChangeType, Scan.getChangeTypeWith, ha, hab,
      Fuzzy.isMajorChange]

/-- Counterexample to C6 as stated (quantifying over EVERY pair of texts):
the pair ("", "a") has magnitude exactly 1 but classifies as NEW_CONTENT,
not MAJOR_CHANGE, at threshold 1, because the first-scan check precedes
the comparator; and the pair ("a", "a") has magnitude 0 = threshold but
classifies as NO_CHANGE at threshold 0, because the equality check
precedes the comparator. -/
theorem threshold_boundary_counterexample :
    Fuzzy.magnitude "" "a" = 1 ∧
    Scan.getChangeType "" "a" 1 = Scan.changeEnum.NEW_CONTENT ∧
    Scan.changeEnum.NEW_CONTENT ≠ Scan.changeEnum.MAJOR_CHANGE ∧
    Fuzzy.magnitude "a" "a" = 0 ∧
    Scan.getChangeType "a" "a" 0 = Scan.changeEnum.NO_CHANGE := by decide

/-- Witness for C6 at concrete boundary inputs: magnitude("ab","cd") = 4
classifies as MAJOR_CHANGE at threshold 4, and magnitude("ab","ac") = 2
classifies as MINOR_CHANGE at threshold 3. -/
theorem threshold_boundary_ge_witness :
    Scan.getChangeType "ab" "cd" 4 = Scan.changeEnum.MAJOR_CHANGE ∧
    Scan.getChangeType "ab" "ac" 3 = Scan.changeEnum.MINOR_CHANGE :=
  ⟨threshold_boundary_ge.1 "ab" "cd" 4 (by decide) (by decide) (by decide),
   threshold_boundary_ge.2 "ab" "ac" 3 (by decide) (by decide) (by decide)⟩

theorem updatePageState_fst_indep (page : ScanPage)
    (prevHtml scannedHtml : String) (w w' : World) :
    (Scan.updatePageState page prevHtml scannedHtml w).1 =
    (Scan.updatePageState page prevHtml scannedHtml w').1 := by
  unfold Scan.updatePageState
  dsimp only
  split_ifs <;> rfl

/-- C1: the scan pipeline never consults `ignoreNumbers`:
`_getChangeType` takes no such parameter and `_updatePageState` never
reads `page.ignoreNumbers`, so with old text "Count: 5", new text
"Count: 9" and threshold 1 the classification is MAJOR_CHANGE and the
page is marked CHANGED for BOTH values of the flag — contradicting the
claim that `ignoreNumbers = true` suppresses the purely numeric edit. -/
theorem ignoreNumbers_not_consulted :
    ∀ b : Bool,
      Scan.getChangeType "Count: 5" "Count: 9" 1 =
        Scan.changeEnum.MAJOR_CHANGE ∧
      Scan.changeEnum.MAJOR_CHANGE ≠ Scan.changeEnum.NO_CHANGE ∧
      Scan.changeEnum.MAJOR_CHANGE ≠ Scan.changeEnum.MINOR_CHANGE ∧
      (Scan.updatePageState
          { id := "p", changeThreshold := 1, ignoreNumbers := b }
          "Count: 5" "Count: 9"
          { store := fun _ => {}, savedPages := [] }).1.state =
        Page.stateEnum.CHANGED := by
  intro b
  cases b <;> exact ⟨by decide, by decide, by decide, by decide⟩

/-- C2 (amended): on a fetch failure the scan sets `page.error` and
`page.errorMessage`, leaves `page.state` unchanged, writes no snapshot
slots, does NOT persist the Page record (the catch handler never calls
`page.save()`), and continues with the next page: a failing head page
leaves the remainder of the batch exactly as if it were absent, so one
page's failure never aborts the batch or affects another page's
classification. -/
theorem scanPage_failure_effects :
    (∀ (page : ScanPage) (status : Nat) (statusText : String) (w : World),
      Scan.scanPage (.httpError status statusText) page w =
        ({ page with
            error := true,
            errorMessage := "[" ++ toString status ++ "] " ++ statusText },
         w)) ∧
    (∀ (page : ScanPage) (message : String) (w : World),
      Scan.scanPage (.netError message) page w =
        ({ page with error := true, errorMessage := message }, w)) ∧
    (∀ (page : ScanPage) (res : FetchResult)
      (rest : List (ScanPage × FetchResult)) (w : World),
      res.failed = true →
      Scan.scan ((page, res) :: rest) w =
        ({ page with error := true, errorMessage := fetchErrorMessage res }
            :: (Scan.scan rest w).1,
         (Scan.scan rest w).2)) := by
  refine ⟨fun page status st w => rfl, fun page m w => rfl,
    fun page res rest w h => ?_⟩
  cases res with
  | success body => simp [FetchResult.failed] at h
  | httpError status statusText => rfl
  | netError message => rfl

/-- Witness for C2 at a concrete batch [P1 fails with 404, P2 succeeds]:
P1 comes out error-flagged with message "[404] Not Found" and state
untouched, and the rest of the batch is scanned from the unchanged
world. -/
theorem scanPage_failure_effects_witness :
    Scan.scan (({ id := "p1" }, FetchResult.httpError 404 "Not Found") ::
        [({ id := "p2" }, FetchResult.success "hello")])
        { store := fun _ => {}, savedPages := [] } =
      ({ id := "p1", error := true, errorMessage := "[404] Not Found" } ::
        (Scan.scan [({ id := "p2" }, FetchResult.success "hello")]
          { store := fun _ => {}, savedPages := [] }).1,
       (Scan.scan [({ id := "p2" }, FetchResult.success "hello")]
          { store := fun _ => {}, savedPages := [] }).2) :=
  scanPage_failure_effects.2.2 { id := "p1" }
    (.httpError 404 "Not Found") [({ id := "p2" }, .success "hello")]
    { store := fun _ => {}, savedPages := [] } (by decide)

/-- Counterexample to C2 as stated: after a failed fetch the error flag is
set, but the Page record is NOT persisted — the save log stays empty,
because the catch handler in `_scanPage` never calls `page.save()`. -/
theorem scanPage_failure_not_persisted :
    (Scan.scanPage (.httpError 404 "Not Found") { id := "p1" }
        { store := fun _ => {}, savedPages := [] }).1.error = true ∧
    (Scan.scanPage (.httpError 404 "Not Found") { id := "p1" }
        { store := fun _ => {}, savedPages := [] }).2.savedPages = [] :=
  ⟨rfl, rfl⟩

/-- C3: the promise chain admits an execution in which page 2's fetch
starts before page 1's classification decision, because `_processHtml`
does not return the storage-load promise that carries the classification
(scan.js line 74), so the chain advances without awaiting it.  The trace
below — both fetches and both load starts in chain order, both
classifications afterwards — is admissible, and in it the classification
of page "1" does not precede the fetch start of page "2". -/
theorem fetch_can_start_before_prior_classification :
    Scan.Admissible
        [({ id := "1" }, .success "a"), ({ id := "2" }, .success "b")]
        [.fetchStart "1", .fetchDone "1", .loadStart "1", .fetchStart "2",
         .fetchDone "2", .loadStart "2", .classifyDone "1",
         .classifyDone "2"] ∧
    ¬ Scan.Precedes (.classifyDone "1") (.fetchStart "2")
        [.fetchStart "1", .fetchDone "1", .loadStart "1", .fetchStart "2",
         .fetchDone "2", .loadStart "2", .classifyDone "1",
         .classifyDone "2"] := by
  exact ⟨⟨by decide, by decide, by decide⟩, by decide⟩

/-- C7: MAJOR_CHANGE snapshot side effects, at the `_processHtml` level
where the previous NEW snapshot is loaded.  If the page's NEW slot holds X
and classifying X against the fetched content Y is MAJOR_CHANGE, then:
from a non-CHANGED state, X is written into the OLD slot and Y into the
NEW slot and the state becomes CHANGED; from a CHANGED state, only Y is
written into the NEW slot and the OLD slot keeps its previous content. -/
theorem major_change_snapshot_effects :
    ∀ (page : ScanPage) (w : World) (o : Option String) (x y : String),
      w.store page.id = { oldHtml := o, newHtml := some x } →
      Scan.getChangeType x y page.changeThreshold =
        Scan.changeEnum.MAJOR_CHANGE →
      (page.state ≠ Page.stateEnum.CHANGED →
        (Scan.processHtml page y w).2.store page.id =
          { oldHtml := some x, newHtml := some y } ∧
        (Scan.processHtml page y w).1.state = Page.stateEnum.CHANGED) ∧
      (page.state = Page.stateEnum.CHANGED →
        (Scan.processHtml page y w).2.store page.id =
          { oldHtml := o, newHtml := some y } ∧
        (Scan.processHtml page y w).1.state = Page.stateEnum.CHANGED) := by
  intro page w o x y hstore hmaj
  constructor
  · intro hne
    constructor <;>
      simp [Scan.processHtml, PageStore.loadHtml, hstore,
        Scan.updatePageState, hmaj, Scan.changeEnum.NEW_CONTENT,
        Scan.changeEnum.MINOR_CHANGE, Scan.changeEnum.MAJOR_CHANGE,
        Scan.changeEnum.NO_CHANGE, hne, PageStore.saveHtml, World.savePage]
  · intro hch
    constructor <;>
      simp [Scan.processHtml, PageStore.loadHtml, hstore,
        Scan.updatePageState, hmaj, Scan.changeEnum.NEW_CONTENT,
        Scan.changeEnum.MINOR_CHANGE, Scan.changeEnum.MAJOR_CHANGE,
        Scan.changeEnum.NO_CHANGE, hch, PageStore.saveHtml, World.savePage]

/-- Witness for C7 at concrete inputs: a non-CHANGED page with NEW
snapshot "a" receiving MAJOR content "b" gets OLD = "a", NEW = "b" and
state CHANGED; an already-CHANGED page with OLD = "z" and NEW snapshot
"a" receiving MAJOR content "b" keeps OLD = "z" and gets NEW = "b". -/
theorem major_change_snapshot_effects_witness :
    ((Scan.processHtml { id := "p", changeThreshold := 0 } "b"
        { store := fun _ => { oldHtml := none, newHtml := some "a" },
          savedPages := [] }).2.store "p" =
      { oldHtml := some "a", newHtml := some "b" } ∧
     (Scan.processHtml { id := "p", changeThreshold := 0 } "b"
        { store := fun _ => { oldHtml := none, newHtml := some "a" },
          savedPages := [] }).1.state = Page.stateEnum.CHANGED) ∧
    ((Scan.processHtml
        { id := "q", changeThreshold := 0, state := Page.stateEnum.CHANGED }
        "b"
        { store := fun _ => { oldHtml := some "z", newHtml := some "a" },
          savedPages := [] }).2.store "q" =
      { oldHtml := some "z", newHtml := some "b" } ∧
     (Scan.processHtml
        { id := "q", changeThreshold := 0, state := Page.stateEnum.CHANGED }
        "b"
        { store := fun _ => { oldHtml := some "z", newHtml := some "a" },
          savedPages := [] }).1.state = Page.stateEnum.CHANGED) :=
  ⟨(major_change_snapshot_effects { id := "p", changeThreshold := 0 }
      { store := fun _ => { oldHtml := none, newHtml := some "a" },
        savedPages := [] } none "a" "b" rfl (by decide)).1 (by decide),
   (major_change_snapshot_effects
      { id := "q", changeThreshold := 0, state := Page.stateEnum.CHANGED }
      { store := fun _ => { oldHtml := some "z", newHtml := some "a" },
        savedPages := [] } (some "z") "a" "b" rfl (by decide)).2 rfl⟩

/-- C8: a NO_CHANGE classification performs no snapshot writes — the
whole snapshot store, hence both the OLD and NEW slot of every page, is
left unchanged — while the page state stays CHANGED if it was already
CHANGED and becomes NO_CHANGE otherwise. -/
theorem no_change_frame :
    ∀ (page : ScanPage) (prevHtml scannedHtml : String) (w : World),
      Scan.getChangeType prevHtml scannedHtml page.changeThreshold =
        Scan.changeEnum.NO_CHANGE →
      (Scan.updatePageState page prevHtml scannedHtml w).2.store = w.store ∧
      (Scan.updatePageState page prevHtml scannedHtml w).1.state =
        (if page.state = Page.stateEnum.CHANGED then Page.stateEnum.CHANGED
         else Page.stateEnum.NO_CHANGE) := by
  intro page prev scanned w h
  by_cases hc : page.state = Page.stateEnum.CHANGED <;>
    constructor <;>
      simp [Scan.updatePageState, h, Scan.changeEnum.NEW_CONTENT,
        Scan.changeEnum.MINOR_CHANGE, Scan.changeEnum.MAJOR_CHANGE,
        Scan.changeEnum.NO_CHANGE, hc, World.savePage]

/-- Witness for C8 at concrete inputs: identical nonempty texts classify
as NO_CHANGE and leave the store function unchanged while the state
becomes NO_CHANGE. -/
theorem no_change_frame_witness :
    (Scan.updatePageState { id := "p" } "a" "a"
        { store := fun _ => {}, savedPages := [] }).2.store =
      (fun _ => ({} : SnapshotSlots)) ∧
    (Scan.updatePageState { id := "p" } "a" "a"
        { store := fun _ => {}, savedPages := [] }).1.state =
      (if ScanPage.state { id := "p" } = Page.stateEnum.CHANGED then
        Page.stateEnum.CHANGED
       else Page.stateEnum.NO_CHANGE) :=
  no_change_frame { id := "p" } "a" "a"
    { store := fun _ => {}, savedPages := [] } (by decide)

/-- C9: on a successful fetch the old side of the classification is the
stored NEW snapshot, never the OLD one: the state written by
`_processHtml` is the transition on the change type computed against the
NEW slot's content, and replacing a page's OLD slot by anything at all
leaves the resulting Page record identical. -/
theorem comparison_baseline_is_new_snapshot :
    ∀ (page : ScanPage) (scannedHtml : String) (w : World),
      (Scan.processHtml page scannedHtml w).1.state =
        Scan.nextState page.state
          (Scan.getChangeType ((w.store page.id).newHtml.getD "")
            scannedHtml page.changeThreshold) ∧
      ∀ o : Option String,
        (Scan.processHtml page scannedHtml
            { store := fun i =>
                if i = page.id then { w.store i with oldHtml := o }
                else w.store i,
              savedPages := w.savedPages }).1 =
          (Scan.processHtml page scannedHtml w).1 := by
  intro page scanned w
  constructor
  · simpa [Scan.processHtml, PageStore.loadHtml] using
      updatePageState_fst_state page ((w.store page.id).newHtml.getD "")
        scanned w
  · intro o
    have h := updatePageState_fst_indep page
      ((w.store page.id).newHtml.getD "") scanned
      { store := fun i =>
          if i = page.id then { w.store i with oldHtml := o }
          else w.store i,
        savedPages := w.savedPages } w
    simpa [Scan.processHtml, PageStore.loadHtml] using h

/-- C10: Page serialisation round trip — for every Page record whose
seventeen persisted fields are all defined (possibly null), feeding
`_toObject()` back through the constructor reproduces the record in every
field, because `_toObject` emits every property and the constructor's
destructuring defaults only replace absent/undefined properties. -/
theorem construct_toObject_roundtrip :
    ∀ p : PageRec, Page.allDefined p →
      Page.construct p.id (Page.toObject p) = p := by
  intro p h
  obtain ⟨h1, h2, h3, h4, h5, h6, h7, h8, h9, h10, h11, h12, h13, h14, h15,
    h16, h17⟩ := h
  cases p
  simp_all [Page.construct, Page.toObject, Page.orDefault]

/-- Witness for C10 at a concrete fully-defined page record. -/
theorem construct_toObject_roundtrip_witness :
    Page.construct "p1" (Page.toObject samplePage) = samplePage :=
  construct_toObject_roundtrip samplePage (by decide)
